import Mathlib

/-!
Verification of the `tap_salesforce.salesforce` core module
(`src/tap_salesforce/salesforce/__init__.py`) against its natural-language
specification.  The Python code is shallowly embedded: pure functions become
Lean functions, raised exceptions become `Except` errors, and the mutable
`rest_requests_attempted` counter is threaded explicitly.
-/

deriving instance DecidableEq for Except

namespace TapSalesforce

/-- Exceptions raised by the module.  `tapSalesforceException` carries its
message (the code formats the offending data into the message string);
`quotaExceeded` distinguishes the two raise sites of
`TapSalesforceQuotaExceededException` (total-quota vs per-run-quota, which in
Python differ by their message text); `httpError` models
`TapSalesforceHTTPException`; `typeError` models Python's built-in `TypeError`
(raised by `re.search` when handed `None`); `zeroDivisionError` models
Python's built-in `ZeroDivisionError`. -/
inductive SfError where
  | tapSalesforceException (msg : String)
  | quotaExceededTotal
  | quotaExceededPerRun
  | httpError
  | typeError
  | zeroDivisionError
deriving DecidableEq, Repr

/-- `REFRESH_TOKEN_EXPIRATION_PERIOD = 900` (seconds).  The source comment
reads: "The minimum expiration setting for SF Refresh Tokens is 15 minutes". -/
def REFRESH_TOKEN_EXPIRATION_PERIOD : ℕ := 900

def BULK_API_TYPE : String := "BULK"

def REST_API_TYPE : String := "REST"

/-- `STRING_TYPES` from the source (a Python `set` literal). -/
def STRING_TYPES : Finset String :=
  {"id", "string", "picklist", "textarea", "phone", "url", "reference",
   "multipicklist", "combobox", "encryptedstring", "email", "complexvalue",
   "masterrecord", "datacategorygroupreference"}

/-- `NUMBER_TYPES` from the source. -/
def NUMBER_TYPES : Finset String := {"double", "currency", "percent"}

/-- `DATE_TYPES` from the source. -/
def DATE_TYPES : Finset String := {"datetime", "date"}

/-- `BINARY_TYPES` from the source. -/
def BINARY_TYPES : Finset String := {"base64", "byte"}

/-- `LOOSE_TYPES` from the source. -/
def LOOSE_TYPES : Finset String := {"anyType", "calculated"}

/-- `UNSUPPORTED_BULK_API_SALESFORCE_OBJECTS` from the source. -/
def UNSUPPORTED_BULK_API_SALESFORCE_OBJECTS : Finset String :=
  {"AssetTokenEvent", "AttachedContentNote", "EventWhoRelation",
   "QuoteTemplateRichTextData", "TaskWhoRelation", "SolutionStatus",
   "ContractStatus", "ContentFolderItem", "RecentlyViewed",
   "DeclinedEventRelation", "AcceptedEventRelation", "TaskStatus",
   "PartnerRole", "TaskPriority", "CaseStatus", "UndecidedEventRelation"}

/-- `QUERY_RESTRICTED_SALESFORCE_OBJECTS` from the source. -/
def QUERY_RESTRICTED_SALESFORCE_OBJECTS : Finset String :=
  {"ContentDocumentLink", "CollaborationGroupRecord", "Vote", "IdeaComment",
   "FieldDefinition", "PlatformAction", "UserEntityAccess", "RelationshipInfo",
   "ContentFolderMember", "SearchLayout", "EntityParticle",
   "OwnerChangeOptionInfo", "DataStatistics", "UserFieldAccess",
   "PicklistValueInfo", "RelationshipDomain", "FlexQueueItem"}

/-- `QUERY_INCOMPATIBLE_SALESFORCE_OBJECTS` from the source. -/
def QUERY_INCOMPATIBLE_SALESFORCE_OBJECTS : Finset String :=
  {"ListViewChartInstance", "FeedLike", "OutgoingEmail",
   "OutgoingEmailRelation", "FeedSignal", "ActivityHistory", "EmailStatus",
   "UserRecordAccess", "Name", "AggregateResult", "OpenActivity",
   "ProcessInstanceHistory", "OwnedContentDocument", "FolderedContentDocument",
   "FeedTrackedChange", "CombinedAttachment", "AttachedContentDocument",
   "ContentBody", "NoteAndAttachment", "LookedUpFromActivity"}

/-- A remote field descriptor: `field['name']`, `field['type']` and the
`nillable` flag (present in the remote metadata; the source never reads it —
"The nillable field cannot be trusted"). -/
structure Field where
  name : String
  type : String
  nillable : Bool
deriving DecidableEq, Repr

/-- A JSON value as used for the `type` entry of a property schema: the code
stores either a bare string (`"string"`) or a flat list of strings
(`["null", "string"]`) — the nullable wrapping is applied at most once, always
to a bare string, so nested lists never arise. -/
inductive JVal where
  | s (v : String)
  | arr (l : List String)
deriving DecidableEq, Repr

/-- One of the eight fixed sub-property schemas of the `address` branch:
`{"type": [...], "multipleOf": ...?}`. -/
structure AddrProp where
  type : JVal
  multipleOf : Option ℚ := none
deriving DecidableEq, Repr

/-- The property-schema dictionary built by `field_to_property_schema`.  Every
key the code may assign is an optional field; a fresh `{}` has all fields
`none`. -/
structure PropertySchema where
  type : Option JVal := none
  format : Option String := none
  properties : Option (List (String × AddrProp)) := none
  multipleOf : Option ℚ := none
deriving DecidableEq, Repr

/-- The empty property schema `{}` (all keys absent). -/
def emptyPropertySchema : PropertySchema := {}

/-- A metadata breadcrumb, e.g. `('properties', field_name)`. -/
abbrev Breadcrumb := String × String

/-- The compiled metadata map: modelled as an association list, most recent
write first (so lookup sees the latest value, matching the dict-overwrite
semantics of `singer.metadata.write`). -/
abbrev Mdata := List (Breadcrumb × String × String)

/-- `metadata.write(mdata, breadcrumb, k, val)`. -/
def metadataWrite (mdata : Mdata) (bc : Breadcrumb) (k v : String) : Mdata :=
  (bc, k, v) :: mdata

/-- `metadata.get(mdata, breadcrumb, k)`: the latest value written for the
breadcrumb/key pair, if any. -/
def metadataGet (mdata : Mdata) (bc : Breadcrumb) (k : String) : Option String :=
  (mdata.find? (fun e => e.1 = bc && e.2.1 = k)).map (fun e => e.2.2)

/-- `["null", t]`: the nullable wrapping `property_schema['type'] =
["null", property_schema['type']]` applied to a type value `t`. -/
def nullWrap : JVal → JVal
  | .s t => .arr ["null", t]
  | .arr l => .arr ("null" :: l)

/-- The final step of `field_to_property_schema`: `if field_name != 'Id':
property_schema['type'] = ["null", property_schema['type']]`.  (At this point
the code has always assigned a `type`; `Option.map` leaves an absent type
absent.) -/
def wrapUnlessId (field_name : String) (s : PropertySchema) : PropertySchema :=
  if field_name ≠ "Id" then { s with type := s.type.map nullWrap } else s

/-- The eight sub-properties of the `address` branch, in source order. -/
def addressProperties : List (String × AddrProp) :=
  [("street", { type := .arr ["null", "string"] }),
   ("state", { type := .arr ["null", "string"] }),
   ("postalCode", { type := .arr ["null", "string"] }),
   ("city", { type := .arr ["null", "string"] }),
   ("country", { type := .arr ["null", "string"] }),
   ("longitude", { type := .arr ["null", "number"], multipleOf := some 0.000001 }),
   ("latitude", { type := .arr ["null", "number"], multipleOf := some 0.000001 }),
   ("geocodeAccuracy", { type := .arr ["null", "string"] })]

/-- `field_to_property_schema(field, mdata)`: translates one field descriptor
into a property schema plus updated metadata, raising
`TapSalesforceException` on a type tag outside the closed supported set.
Branch order and contents follow the source line by line; the three early
returns (loose, binary, unknown) bypass the nullable wrapping. -/
def field_to_property_schema (field : Field) (mdata : Mdata) :
    Except SfError (PropertySchema × Mdata) :=
  let field_name := field.name
  let sf_type := field.type
  if sf_type ∈ STRING_TYPES then
    .ok (wrapUnlessId field_name { type := some (.s "string") }, mdata)
  else if sf_type ∈ DATE_TYPES then
    .ok (wrapUnlessId field_name { format := some "date-time", type := some (.s "string") }, mdata)
  else if sf_type = "boolean" then
    .ok (wrapUnlessId field_name { type := some (.s "boolean") }, mdata)
  else if sf_type ∈ NUMBER_TYPES then
    .ok (wrapUnlessId field_name { type := some (.s "number") }, mdata)
  else if sf_type = "address" then
    .ok (wrapUnlessId field_name
          { type := some (.s "object"), properties := some addressProperties }, mdata)
  else if sf_type = "int" then
    .ok (wrapUnlessId field_name { type := some (.s "integer") }, mdata)
  else if sf_type = "time" then
    .ok (wrapUnlessId field_name { type := some (.s "string") }, mdata)
  else if sf_type ∈ LOOSE_TYPES then
    .ok (emptyPropertySchema, mdata)
  else if sf_type ∈ BINARY_TYPES then
    .ok (emptyPropertySchema,
         metadataWrite
           (metadataWrite mdata ("properties", field_name) "inclusion" "unsupported")
           ("properties", field_name) "unsupported-description" "binary data")
  else if sf_type = "location" then
    .ok (wrapUnlessId field_name { type := some (.s "number"), multipleOf := some 0.000001 }, mdata)
  else
    .error (.tapSalesforceException ("Found unsupported type: " ++ sf_type))

/-- The closed set of remote type tags `field_to_property_schema` accepts
without raising: the union of every branch condition of the if/elif chain. -/
def supportedTypeTags : Finset String :=
  STRING_TYPES ∪ DATE_TYPES ∪ {"boolean"} ∪ NUMBER_TYPES ∪
    {"address", "int", "time"} ∪ LOOSE_TYPES ∪ BINARY_TYPES ∪ {"location"}

/-- Whether a schema's declared type is nullable-wrapped: a two-element type
list of `"null"` followed by a bare base type. -/
def isNullableWrapped : Option JVal → Bool
  | some (.arr ["null", _]) => true
  | _ => false

/-- Python's `int()` applied to a (real-valued) quotient: truncation toward
zero. -/
def pyInt (q : ℚ) : ℤ := if 0 ≤ q then ⌊q⌋ else ⌈q⌉

/-- The number denoted by a run of decimal digits (what Python's `int()`
returns on the captured group). -/
def digitsToNat (l : List Char) : ℕ :=
  l.foldl (fun acc c => 10 * acc + (c.toNat - 48)) 0

/-- `re.search('^api-usage=(\d+)/(\d+)$', s)`, working on the character
sequence of `s`: the whole string (allowing one trailing newline, which the
anchor `$` tolerates) must be `api-usage=` followed by two nonempty digit
runs separated by `/`; returns the two captured numbers. -/
def parseApiUsage (s : String) : Option (ℕ × ℕ) :=
  let cs := if s.data.getLast? = some '\n' then s.data.dropLast else s.data
  if cs.take 10 = "api-usage=".data then
    match (cs.drop 10).splitOn '/' with
    | [a, b] =>
      if a ≠ [] && b ≠ [] && a.all Char.isDigit && b.all Char.isDigit then
        some (digitsToNat a, digitsToNat b)
      else none
    | _ => none
  else none

/-- The body of `check_rest_quota_usage` after a successful regex match, on
the two captured numbers. -/
def quotaDecision (quota_percent_per_run quota_percent_total : ℚ)
    (rest_requests_attempted remaining allotted : ℕ) : Except SfError Unit :=
  if allotted = 0 then .error .zeroDivisionError
  else
    let percent_used_from_total : ℚ := ((remaining : ℚ) / (allotted : ℚ)) * 100
    let max_requests_for_run : ℤ := pyInt ((quota_percent_per_run * (allotted : ℚ)) / 100)
    if percent_used_from_total > quota_percent_total then
      .error .quotaExceededTotal
    else if (rest_requests_attempted : ℤ) > max_requests_for_run then
      .error .quotaExceededPerRun
    else .ok ()

/-- `Salesforce.check_rest_quota_usage(self, headers)`.  The configuration
fields `quota_percent_per_run` / `quota_percent_total` and the counter
`self.rest_requests_attempted` are passed explicitly; `limitInfo` is
`headers.get('Sforce-Limit-Info')`.  When that header is absent (`None`),
`re.search` raises `TypeError`; when present but not matching the pattern the
function returns without raising; `remaining / allotted` raises
`ZeroDivisionError` when `allotted = 0`. -/
def check_rest_quota_usage (quota_percent_per_run quota_percent_total : ℚ)
    (rest_requests_attempted : ℕ) (limitInfo : Option String) :
    Except SfError Unit :=
  match limitInfo with
  | none => .error .typeError
  | some s =>
    match parseApiUsage s with
    | none => .ok ()
    | some (remaining, allotted) =>
      quotaDecision quota_percent_per_run quota_percent_total
        rest_requests_attempted remaining allotted

/-- The response as `_make_request` sees it: whether `raise_for_status`
passes (status not 4xx/5xx) and the value of the `Sforce-Limit-Info`
header, if present. -/
structure HttpResponse where
  ok : Bool
  sforceLimitInfo : Option String
deriving DecidableEq, Repr

/-- `Salesforce._make_request(self, http_method, url, ...)`: the transport is
abstracted by handing the function the response the session would return.
Returns the new `rest_requests_attempted` counter together with either the
response or the raised error.  Order of effects follows the source: method
dispatch, then `raise_for_status` (wrapped as an HTTP error), then — only when
the usage header is present — increment the counter and run
`check_rest_quota_usage`. -/
def _make_request (quota_percent_per_run quota_percent_total : ℚ)
    (rest_requests_attempted : ℕ) (http_method : String) (resp : HttpResponse) :
    ℕ × Except SfError HttpResponse :=
  if http_method = "GET" ∨ http_method = "POST" then
    if resp.ok then
      match resp.sforceLimitInfo with
      | some info =>
        let count := rest_requests_attempted + 1
        (count,
         (check_rest_quota_usage quota_percent_per_run quota_percent_total
            count (some info)).map (fun _ => resp))
      | none => (rest_requests_attempted, .ok resp)
    else (rest_requests_attempted, .error .httpError)
  else (rest_requests_attempted, .error (.tapSalesforceException "Unsupported HTTP method"))

/-- Pythonic truthiness of an optional string (`if replication_key:` /
`if end_date:`): `None` and the empty string are falsy. -/
def pyTruthy : Option String → Bool
  | none => false
  | some s => s ≠ ""

/-- One entry of `catalog_entry['schema']['properties']` together with its
metadata: the property name, its `selected` metadata value and its
`inclusion` metadata value. -/
structure CatalogProperty where
  name : String
  selected : Bool
  inclusion : String
deriving DecidableEq, Repr

/-- The parts of a catalog entry read by the query builder:
`catalog_entry['stream']`, the schema properties with their metadata, and
`catalog_entry['replication_key']` (possibly absent or empty). -/
structure CatalogEntry where
  stream : String
  properties : List CatalogProperty
  replication_key : Option String
deriving DecidableEq, Repr

/-- `Salesforce._get_selected_properties(self, catalog_entry)`: property names
whose metadata has `selected` set or `inclusion == 'automatic'`, in schema
order. -/
def _get_selected_properties (catalog_entry : CatalogEntry) : List String :=
  (catalog_entry.properties.filter
    (fun p => p.selected || p.inclusion == "automatic")).map (fun p => p.name)

/-- `Salesforce._build_query_string(self, catalog_entry, start_date,
end_date=None)`: the SOQL string, built exactly as in the source (including
the trailing space of the WHERE clause). -/
def _build_query_string (catalog_entry : CatalogEntry) (start_date : String)
    (end_date : Option String := none) : String :=
  let selected_properties := _get_selected_properties catalog_entry
  let query := "SELECT " ++ String.intercalate "," selected_properties ++
    " FROM " ++ catalog_entry.stream
  let replication_key := catalog_entry.replication_key
  if pyTruthy replication_key then
    let rk := replication_key.getD ""
    let where_clause := " WHERE " ++ rk ++ " >= " ++ start_date ++ " "
    let end_date_clause :=
      if pyTruthy end_date then " AND " ++ rk ++ " < " ++ end_date.getD "" else ""
    let order_by := " ORDER BY " ++ rk ++ " ASC"
    query ++ where_clause ++ end_date_clause ++ order_by
  else query

/-- `Salesforce.get_blacklisted_objects(self)`: the strategy-specific object
denylist, or a configuration error for an unrecognized `api_type`. -/
def get_blacklisted_objects (api_type : String) : Except SfError (Finset String) :=
  if api_type = BULK_API_TYPE then
    .ok ((UNSUPPORTED_BULK_API_SALESFORCE_OBJECTS ∪
          QUERY_RESTRICTED_SALESFORCE_OBJECTS) ∪
         QUERY_INCOMPATIBLE_SALESFORCE_OBJECTS)
  else if api_type = REST_API_TYPE then
    .ok (QUERY_RESTRICTED_SALESFORCE_OBJECTS ∪
         QUERY_INCOMPATIBLE_SALESFORCE_OBJECTS)
  else
    .error (.tapSalesforceException ("api_type should be REST or BULK was: " ++ api_type))

end TapSalesforce

namespace TapSalesforce

/-- The catalog entry of the spec's worked example: stream `Account`, the
selected fields `Id` and `Name`, replication key `SystemModstamp`. -/
def accountCatalogEntry : CatalogEntry :=
  { stream := "Account",
    properties := [⟨"Id", true, ""⟩, ⟨"Name", true, ""⟩],
    replication_key := some "SystemModstamp" }

/-! Helper lemmas shared by the claim theorems. -/

theorem pyInt_eq_floor (q : ℚ) (h : 0 ≤ q) : pyInt q = ⌊q⌋ := by
  simp [pyInt, h]

theorem isNullableWrapped_wrapUnlessId (name b : String) (s : PropertySchema)
    (h : s.type = some (.s b)) :
    isNullableWrapped ((wrapUnlessId name s).type) = (name != "Id") := by
  by_cases hn : name = "Id" <;>
    simp [wrapUnlessId, hn, h, isNullableWrapped, nullWrap, bne]

theorem check_rest_quota_usage_parsed (pr t : ℚ) (count : ℕ) (s : String)
    (remaining allotted : ℕ)
    (h : parseApiUsage s = some (remaining, allotted)) :
    check_rest_quota_usage pr t count (some s) =
      quotaDecision pr t count remaining allotted := by
  have hdef : check_rest_quota_usage pr t count (some s) =
      match parseApiUsage s with
      | none => Except.ok ()
      | some (remaining, allotted) =>
        quotaDecision pr t count remaining allotted := rfl
  rw [hdef, h]

theorem check_rest_quota_usage_nomatch (pr t : ℚ) (count : ℕ) (s : String)
    (h : parseApiUsage s = none) :
    check_rest_quota_usage pr t count (some s) = .ok () := by
  have hdef : check_rest_quota_usage pr t count (some s) =
      match parseApiUsage s with
      | none => Except.ok ()
      | some (remaining, allotted) =>
        quotaDecision pr t count remaining allotted := rfl
  rw [hdef, h]

theorem quotaDecision_eq (pr t : ℚ) (count remaining allotted : ℕ)
    (ha : allotted ≠ 0) (hpr : 0 ≤ pr) :
    quotaDecision pr t count remaining allotted =
      (if ((remaining : ℚ) / (allotted : ℚ)) * 100 > t then
        .error .quotaExceededTotal
       else if (count : ℤ) > ⌊(pr * (allotted : ℚ)) / 100⌋ then
        .error .quotaExceededPerRun
       else .ok ()) := by
  unfold quotaDecision
  rw [if_neg ha]
  dsimp only
  rw [pyInt_eq_floor _
    (div_nonneg (mul_nonneg hpr (by positivity)) (by norm_num))]

theorem quotaDecision_900_1000 (count : ℕ) :
    quotaDecision 25 80 count 900 1000 = .error .quotaExceededTotal := by
  unfold quotaDecision
  rw [if_neg (by norm_num : ¬((1000 : ℕ) = 0))]
  dsimp only
  rw [if_pos (by norm_num)]

/-! The claim theorems. -/

/-- C1 (counterexample): the claim fails as stated.  The tag `anyType` lies
in the closed supported set, yet for a field named `AnyField` (not the
reserved identifier `Id`) `field_to_property_schema` returns a schema with no
declared type at all, so the declared type is not nullable-wrapped even
though the name is not `Id`. -/
theorem loose_type_field_not_nullable_wrapped :
    "anyType" ∈ supportedTypeTags ∧
    (⟨"AnyField", "anyType", true⟩ : Field).name ≠ "Id" ∧
    field_to_property_schema ⟨"AnyField", "anyType", true⟩ [] =
      .ok (emptyPropertySchema, []) ∧
    isNullableWrapped emptyPropertySchema.type = false :=
  ⟨by decide, by decide, rfl, rfl⟩

/-- C1 (amended): for every field descriptor whose remote type tag is in the
closed supported set and outside the loose and binary classes (which return
fragments carrying no declared type), the schema fragment returned by
`field_to_property_schema` has its declared type wrapped as nullable if and
only if the field's name is not the reserved identifier `Id`; this holds for
every value of the descriptor's `nillable` flag, which is quantified over
and never read. -/
theorem typed_field_nullable_wrapped_iff_not_Id (field : Field) (mdata : Mdata)
    (hs : field.type ∈ supportedTypeTags)
    (hl : field.type ∉ LOOSE_TYPES) (hb : field.type ∉ BINARY_TYPES) :
    (field_to_property_schema field mdata).toOption.map
      (fun r => isNullableWrapped r.1.type) = some (field.name != "Id") := by
  obtain ⟨name, tag, nb⟩ := field
  simp only [supportedTypeTags, STRING_TYPES, DATE_TYPES, NUMBER_TYPES,
    LOOSE_TYPES, BINARY_TYPES, Finset.mem_union, Finset.mem_insert,
    Finset.mem_singleton, or_assoc] at hs
  rcases hs with (rfl|rfl|rfl|rfl|rfl|rfl|rfl|rfl|rfl|rfl|rfl|rfl|rfl|rfl|rfl|rfl|rfl|rfl|rfl|rfl|rfl|rfl|rfl|rfl|rfl|rfl|rfl|rfl) <;>
    first
      | exact (hl (of_decide_eq_true rfl)).elim
      | exact (hb (of_decide_eq_true rfl)).elim
      | exact congrArg some (isNullableWrapped_wrapUnlessId name _ _ rfl)

/-- C1 (witness): at the string-typed field `Name` the wrapped type is
nullable, and at the reserved field `Id` (type tag `id`) it is not. -/
theorem typed_field_nullable_wrapped_iff_not_Id_witness :
    (field_to_property_schema ⟨"Name", "string", true⟩ []).toOption.map
      (fun r => isNullableWrapped r.1.type) = some (("Name" : String) != "Id") ∧
    (field_to_property_schema ⟨"Id", "id", false⟩ []).toOption.map
      (fun r => isNullableWrapped r.1.type) = some (("Id" : String) != "Id") :=
  ⟨typed_field_nullable_wrapped_iff_not_Id ⟨"Name", "string", true⟩ []
      (by decide) (by decide) (by decide),
   typed_field_nullable_wrapped_iff_not_Id ⟨"Id", "id", false⟩ []
      (by decide) (by decide) (by decide)⟩

/-- C2: for every usage header parsing as `api-usage=remaining/allotted`
(with nonzero allotment and nonnegative per-run quota, as configured),
`check_rest_quota_usage` raises the total-quota-exceeded error when
`remaining/allotted*100 > quota_percent_total` — this check comes first —
and otherwise raises the per-run error exactly when the attempted-request
counter exceeds `floor(quota_percent_per_run * allotted / 100)`; in
particular with header `api-usage=900/1000`, per-run quota 25 and total
quota 80 the total-quota error is raised whatever the counter value. -/
theorem check_rest_quota_usage_thresholds (pr t : ℚ)
    (count remaining allotted : ℕ) (s : String)
    (hparse : parseApiUsage s = some (remaining, allotted))
    (hallot : allotted ≠ 0) (hpr : 0 ≤ pr) :
    check_rest_quota_usage pr t count (some s) =
      (if ((remaining : ℚ) / (allotted : ℚ)) * 100 > t then
        .error .quotaExceededTotal
       else if (count : ℤ) > ⌊(pr * (allotted : ℚ)) / 100⌋ then
        .error .quotaExceededPerRun
       else .ok ()) ∧
    check_rest_quota_usage 25 80 count (some "api-usage=900/1000") =
      .error .quotaExceededTotal :=
  ⟨(check_rest_quota_usage_parsed pr t count s remaining allotted hparse).trans
      (quotaDecision_eq pr t count remaining allotted hallot hpr),
   (check_rest_quota_usage_parsed 25 80 count "api-usage=900/1000" 900 1000
      (by decide)).trans (quotaDecision_900_1000 count)⟩

/-- C2 (witness): with header `api-usage=900/1000`, per-run quota 25, total
quota 80 and a counter of 260 (which already exceeds the per-run cap of
250), the total-quota error is still the one raised. -/
theorem check_rest_quota_usage_thresholds_witness :
    check_rest_quota_usage 25 80 260 (some "api-usage=900/1000") =
      .error .quotaExceededTotal :=
  (check_rest_quota_usage_thresholds 25 80 260 900 1000 "api-usage=900/1000"
    (by decide) (by decide) (by decide)).2

/-- C3 (counterexample): the claim fails as stated.  With the usage header
absent, `check_rest_quota_usage` is not a no-op: `headers.get` yields `None`
and `re.search` raises `TypeError`. -/
theorem absent_header_raises_type_error :
    check_rest_quota_usage 25 80 0 none ≠ .ok () ∧
    check_rest_quota_usage 25 80 0 none = .error .typeError :=
  ⟨by decide, rfl⟩

/-- C3 (amended): when the usage header is present but does not match the
`api-usage=<remaining>/<allotted>` pattern, `check_rest_quota_usage` is a
no-op (it returns normally and touches no state); when the header is absent
it instead raises a `TypeError` (in the program this case is unreachable:
`_make_request` only invokes the check when the header is present). -/
theorem nonmatching_header_noop (pr t : ℚ) (count : ℕ) (s : String)
    (h : parseApiUsage s = none) :
    check_rest_quota_usage pr t count (some s) = .ok () ∧
    check_rest_quota_usage pr t count none = .error .typeError :=
  ⟨check_rest_quota_usage_nomatch pr t count s h, rfl⟩

/-- C3 (witness): a present but non-matching header value is a no-op. -/
theorem nonmatching_header_noop_witness :
    check_rest_quota_usage 25 80 7 (some "no-usage-header") = .ok () ∧
    check_rest_quota_usage 25 80 7 none = .error .typeError :=
  nonmatching_header_noop 25 80 7 "no-usage-header" (by decide)

/-- C4: on stream `Account` with selected fields `Id,Name` and replication
key `SystemModstamp`, `_build_query_string` with start bookmark
`2020-01-01T00:00:00Z` and no end bookmark returns exactly the documented
string (double space before `ORDER BY` included), and supplying end bookmark
`2020-02-01T00:00:00Z` inserts exactly
` AND SystemModstamp < 2020-02-01T00:00:00Z` immediately before the
` ORDER BY` clause. -/
theorem build_query_string_account_exact :
    _build_query_string accountCatalogEntry "2020-01-01T00:00:00Z" none =
      "SELECT Id,Name FROM Account WHERE SystemModstamp >= 2020-01-01T00:00:00Z  ORDER BY SystemModstamp ASC" ∧
    _build_query_string accountCatalogEntry "2020-01-01T00:00:00Z" none =
      "SELECT Id,Name FROM Account WHERE SystemModstamp >= 2020-01-01T00:00:00Z " ++
        " ORDER BY SystemModstamp ASC" ∧
    _build_query_string accountCatalogEntry "2020-01-01T00:00:00Z"
        (some "2020-02-01T00:00:00Z") =
      "SELECT Id,Name FROM Account WHERE SystemModstamp >= 2020-01-01T00:00:00Z " ++
        " AND SystemModstamp < 2020-02-01T00:00:00Z" ++ " ORDER BY SystemModstamp ASC" :=
  ⟨rfl, rfl, rfl⟩

/-- C5: for every field descriptor of the binary class (`base64` or `byte`),
`field_to_property_schema` returns the empty schema fragment (no declared
type) and metadata marking the field's inclusion as `unsupported` with the
non-empty reason `binary data`. -/
theorem binary_field_unsupported_schema (field : Field) (mdata : Mdata)
    (h : field.type ∈ BINARY_TYPES) :
    field_to_property_schema field mdata =
      .ok (emptyPropertySchema,
           metadataWrite
             (metadataWrite mdata ("properties", field.name) "inclusion" "unsupported")
             ("properties", field.name) "unsupported-description" "binary data") ∧
    emptyPropertySchema.type = none ∧
    metadataGet
      (metadataWrite
        (metadataWrite mdata ("properties", field.name) "inclusion" "unsupported")
        ("properties", field.name) "unsupported-description" "binary data")
      ("properties", field.name) "inclusion" = some "unsupported" ∧
    metadataGet
      (metadataWrite
        (metadataWrite mdata ("properties", field.name) "inclusion" "unsupported")
        ("properties", field.name) "unsupported-description" "binary data")
      ("properties", field.name) "unsupported-description" = some "binary data" ∧
    "binary data" ≠ "" := by
  obtain ⟨name, tag, nb⟩ := field
  refine ⟨?_, rfl, ?_, ?_, by decide⟩
  · simp only [BINARY_TYPES, Finset.mem_insert, Finset.mem_singleton] at h
    rcases h with rfl | rfl <;> rfl
  · simp [metadataGet, metadataWrite, List.find?]
  · simp [metadataGet, metadataWrite, List.find?]

/-- C5 (witness): the binary field `Body` of type `base64`. -/
theorem binary_field_unsupported_schema_witness :
    field_to_property_schema ⟨"Body", "base64", true⟩ [] =
      .ok (emptyPropertySchema,
           metadataWrite
             (metadataWrite [] ("properties", "Body") "inclusion" "unsupported")
             ("properties", "Body") "unsupported-description" "binary data") ∧
    emptyPropertySchema.type = none ∧
    metadataGet
      (metadataWrite
        (metadataWrite [] ("properties", "Body") "inclusion" "unsupported")
        ("properties", "Body") "unsupported-description" "binary data")
      ("properties", "Body") "inclusion" = some "unsupported" ∧
    metadataGet
      (metadataWrite
        (metadataWrite [] ("properties", "Body") "inclusion" "unsupported")
        ("properties", "Body") "unsupported-description" "binary data")
      ("properties", "Body") "unsupported-description" = some "binary data" ∧
    "binary data" ≠ "" :=
  binary_field_unsupported_schema ⟨"Body", "base64", true⟩ [] (by decide)

/-- C6: for every field descriptor whose remote type tag lies outside the
closed supported set, `field_to_property_schema` raises a
`TapSalesforceException` whose message names the offending tag (it is the
string `Found unsupported type: ` followed by the tag). -/
theorem unknown_type_tag_raises (field : Field) (mdata : Mdata)
    (h : field.type ∉ supportedTypeTags) :
    field_to_property_schema field mdata =
      .error (.tapSalesforceException ("Found unsupported type: " ++ field.type)) := by
  simp only [supportedTypeTags, Finset.mem_union, Finset.mem_insert,
    Finset.mem_singleton, or_assoc, not_or] at h
  obtain ⟨h1, h2, h3, h4, h5, h6, h7, h8, h9, h10⟩ := h
  simp [field_to_property_schema, h1, h2, h3, h4, h5, h6, h7, h8, h9, h10]

/-- C6 (witness): the tag `unknowntype` is outside the closed set and
raises the unsupported-type error naming it. -/
theorem unknown_type_tag_raises_witness :
    ("unknowntype" ∉ supportedTypeTags) ∧
    field_to_property_schema ⟨"SomeField", "unknowntype", true⟩ [] =
      .error (.tapSalesforceException ("Found unsupported type: " ++ "unknowntype")) :=
  ⟨by decide, unknown_type_tag_raises ⟨"SomeField", "unknowntype", true⟩ [] (by decide)⟩

/-- C7: for every stream descriptor whose replication key is absent or
empty (Python falsy), `_build_query_string` ignores both bookmarks and
returns the unfiltered, unordered selection
`SELECT <comma-joined selected fields> FROM <stream>`. -/
theorem no_replication_key_unfiltered_query (catalog_entry : CatalogEntry)
    (start_date : String) (end_date : Option String)
    (h : pyTruthy catalog_entry.replication_key = false) :
    _build_query_string catalog_entry start_date end_date =
      "SELECT " ++ String.intercalate "," (_get_selected_properties catalog_entry) ++
        " FROM " ++ catalog_entry.stream := by
  simp [_build_query_string, h]

/-- C7 (witness): a keyless `Account` stream with both bookmarks supplied
still yields the plain select. -/
theorem no_replication_key_unfiltered_query_witness :
    _build_query_string
      { stream := "Account",
        properties := [⟨"Id", true, ""⟩, ⟨"Name", true, ""⟩],
        replication_key := none }
      "2020-01-01T00:00:00Z" (some "2020-02-01T00:00:00Z") =
      "SELECT Id,Name FROM Account" :=
  (no_replication_key_unfiltered_query
    { stream := "Account",
      properties := [⟨"Id", true, ""⟩, ⟨"Name", true, ""⟩],
      replication_key := none }
    "2020-01-01T00:00:00Z" (some "2020-02-01T00:00:00Z") rfl).trans rfl

/-- C8: the object denylist returned by `get_blacklisted_objects` for the
bulk strategy is the union of the bulk-unsupported, query-restricted and
query-incompatible tables, the REST denylist is the union of the latter two
only, and the former is a strict superset of the latter (for instance
`AssetTokenEvent` is bulk-only). -/
theorem bulk_blacklist_strict_superset_of_rest :
    get_blacklisted_objects BULK_API_TYPE =
      .ok ((UNSUPPORTED_BULK_API_SALESFORCE_OBJECTS ∪
            QUERY_RESTRICTED_SALESFORCE_OBJECTS) ∪
           QUERY_INCOMPATIBLE_SALESFORCE_OBJECTS) ∧
    get_blacklisted_objects REST_API_TYPE =
      .ok (QUERY_RESTRICTED_SALESFORCE_OBJECTS ∪
           QUERY_INCOMPATIBLE_SALESFORCE_OBJECTS) ∧
    (QUERY_RESTRICTED_SALESFORCE_OBJECTS ∪ QUERY_INCOMPATIBLE_SALESFORCE_OBJECTS) ⊂
      ((UNSUPPORTED_BULK_API_SALESFORCE_OBJECTS ∪
        QUERY_RESTRICTED_SALESFORCE_OBJECTS) ∪
       QUERY_INCOMPATIBLE_SALESFORCE_OBJECTS) ∧
    "AssetTokenEvent" ∈ ((UNSUPPORTED_BULK_API_SALESFORCE_OBJECTS ∪
        QUERY_RESTRICTED_SALESFORCE_OBJECTS) ∪
       QUERY_INCOMPATIBLE_SALESFORCE_OBJECTS) ∧
    "AssetTokenEvent" ∉ (QUERY_RESTRICTED_SALESFORCE_OBJECTS ∪
       QUERY_INCOMPATIBLE_SALESFORCE_OBJECTS) :=
  ⟨rfl, rfl, by decide, by decide, by decide⟩

/-- C9 (counterexample): the claim fails as stated.  The renewal period
`REFRESH_TOKEN_EXPIRATION_PERIOD` is 900 seconds, which is not strictly
less than the assumed 900-second minimum token lifetime floor. -/
theorem refresh_period_not_strictly_less :
    ¬ (REFRESH_TOKEN_EXPIRATION_PERIOD < 900) := by decide

/-- C9 (amended): the fixed renewal period after which the armed timer
re-invokes `login()` equals the assumed 15-minute (900-second) minimum
token lifetime floor — it is at most the floor, but not strictly below
it. -/
theorem refresh_period_equals_floor :
    REFRESH_TOKEN_EXPIRATION_PERIOD = 900 ∧
    REFRESH_TOKEN_EXPIRATION_PERIOD ≤ 900 := by decide

/-- C10: for every request over a supported method, a failing response
(status 4xx/5xx) makes `_make_request` raise the HTTP transport error with
the `rest_requests_attempted` counter unchanged and the quota check never
consulted — even when the failed response carries the usage header; a
successful response without the header leaves the counter unchanged and
runs no quota check; only a successful response carrying the header
increments the counter and hands the header to `check_rest_quota_usage`. -/
theorem make_request_http_error_before_quota (pr t : ℚ) (count : ℕ)
    (method : String) (resp : HttpResponse)
    (hm : method = "GET" ∨ method = "POST") :
    (resp.ok = false →
      _make_request pr t count method resp = (count, .error .httpError)) ∧
    (resp.ok = true → resp.sforceLimitInfo = none →
      _make_request pr t count method resp = (count, .ok resp)) ∧
    (∀ info, resp.ok = true → resp.sforceLimitInfo = some info →
      _make_request pr t count method resp =
        (count + 1,
         (check_rest_quota_usage pr t (count + 1) (some info)).map
           (fun _ => resp))) := by
  obtain ⟨ok, info⟩ := resp
  rcases hm with rfl | rfl <;>
    (refine ⟨fun h1 => ?_, fun h1 h2 => ?_, fun i h1 h2 => ?_⟩ <;>
      subst h1 <;> (try subst h2) <;> rfl)

/-- C10 (witness): a failing GET response that carries a usage header which
would exceed the total quota still produces the HTTP error, with the
counter left at 7 and no quota error. -/
theorem make_request_http_error_before_quota_witness :
    _make_request 25 80 7 "GET" ⟨false, some "api-usage=900/1000"⟩ =
      (7, .error .httpError) :=
  (make_request_http_error_before_quota 25 80 7 "GET"
    ⟨false, some "api-usage=900/1000"⟩ (Or.inl rfl)).1 rfl

end TapSalesforce
